import Mathlib

/-!
# Verification of the student-dashboard performance-scoring and assistant logic

Shallow embedding of the core logic of `src/js/model.js` (classes
`StudentModel` and `AssistantModel`) together with the helpers from
`Utils` (`src/js/assistantView.js` utility section) that those code
paths use.

Modelling conventions, used consistently below:
* JavaScript numbers are modelled as exact rationals (`ℚ`).  A field that
  may fail to parse as a number (`parseFloat`/`parseInt` returning `NaN`)
  is modelled as `Option ℚ` with `none` playing the role of `NaN`.
* JavaScript arrays are Lean lists; `arr.slice(-n)` is
  `l.drop (l.length - n)`.
* `Math.round x` is Mathlib's `round` (both round half toward `+∞`).
* Strings are ASCII in all inputs of interest; `toLowerCase` is
  per-character ASCII lowering.
-/

/-- JavaScript whitespace characters (the ASCII ones plus NBSP/BOM;
queries of interest are ASCII). Used by `String.prototype.trim` and
`\s` in regular expressions. -/
def jsWsChar (c : Char) : Bool :=
  c = ' ' ∨ c = '\t' ∨ c = '\n' ∨ c = '\r' ∨ c = '\x0b' ∨ c = '\x0c' ∨
  c = ' ' ∨ c = '﻿'

/-- `String.prototype.trim`: strip whitespace from both ends. -/
def jsTrim (s : String) : String :=
  ⟨((s.data.dropWhile jsWsChar).reverse.dropWhile jsWsChar).reverse⟩

/-- `String.prototype.toLowerCase` (ASCII range, which covers the
queries this model is exercised on). -/
def jsToLower (s : String) : String :=
  ⟨s.data.map Char.toLower⟩

/-- `arr.slice(-n)` on a JavaScript array: the trailing window of at
most `n` elements. -/
def jsSliceLast (n : Nat) (l : List α) : List α :=
  l.drop (l.length - n)

/-- `parseInt` applied to an already-parsed numeric value (`none` is
`NaN`): truncation toward zero, as `parseInt` does on the decimal
rendering of a finite number. -/
def jsParseInt (v : Option ℚ) : Option ℤ :=
  v.map fun q => if 0 ≤ q then ⌊q⌋ else ⌈q⌉

/-- Sum of JavaScript numbers where `none` = `NaN` poisons the sum
(mirrors `reduce((sum, s) => sum + parseInt(s.attendance), 0)`). -/
def jsSumInt (l : List (Option ℤ)) : Option ℤ :=
  l.foldl (fun acc v => match acc, v with
    | some a, some b => some (a + b)
    | _, _ => none) (some 0)

/-!
## ScoreEngine: `StudentModel.calculatePerformanceScore` and friends
(`src/js/model.js`)
-/

/-- `StudentModel.calculatePerformanceScore` (model.js 88-96):
`(isNaN(g) ? 0 : g) * 10 * 0.5 + (isNaN(a) ? 0 : a) * 0.3 +
(isNaN(as) ? 0 : as) * 0.2`, then `Math.round(score * 100) / 100`. -/
def calculatePerformanceScore (gpa attendance assignmentScore : Option ℚ) : ℚ :=
  let g := gpa.getD 0
  let a := attendance.getD 0
  let as := assignmentScore.getD 0
  let score := g * 10 * (1/2) + a * (3/10) + as * (1/5)
  (round (score * 100) : ℤ) / 100

/-- Modelled from the spec's words (§4.1) for comparison with the source
function: `score = gpa*10*0.5 + attendance*0.3 + assignmentScore*0.2`,
rounded to 2 decimal places, any input that fails to parse treated as 0. -/
def computeScoreSpec (gpa attendance assignmentScore : Option ℚ) : ℚ :=
  (round ((gpa.getD 0 * 10 * (1/2) + attendance.getD 0 * (3/10) +
    assignmentScore.getD 0 * (1/5)) * 100) : ℤ) / 100

/-- The history-append step of `StudentModel.updateStudent`
(model.js 199-207): push the new score unless it is within `0.001` of
the last entry, then keep the trailing window of 5 (`slice(-5)`). -/
def appendSample (history : List ℚ) (newScore : ℚ) : List ℚ :=
  match history.getLast? with
  | none => jsSliceLast 5 (history ++ [newScore])
  | some lastScore =>
    if |newScore - lastScore| > 1/1000 then jsSliceLast 5 (history ++ [newScore])
    else jsSliceLast 5 history

/-- `StudentModel.getPerformanceTrend` (model.js 114-123).  The source's
locals `arr`, `first`, `last`, `diff` are inlined: `arr` is
`jsSliceLast 3 performanceHistory` and `diff` is
`arr[arr.length - 1] - arr[0]`. -/
def getPerformanceTrend (performanceHistory : List ℚ) : String :=
  if (jsSliceLast 3 performanceHistory).length < 2 then "stable"
  else if (jsSliceLast 3 performanceHistory).getLastD 0 -
      (jsSliceLast 3 performanceHistory).headD 0 > 1/20 then "up"
  else if (jsSliceLast 3 performanceHistory).getLastD 0 -
      (jsSliceLast 3 performanceHistory).headD 0 < -(1/20) then "down"
  else "stable"

/-- The `mean`/`variance` locals of
`StudentModel.getPerformanceConsistency` (model.js 131-132): the
population variance
`arr.reduce((sum, v) => sum + Math.pow(v - mean, 2), 0) / arr.length`
with `mean = arr.reduce((a, b) => a + b, 0) / arr.length`. -/
def popVariance (arr : List ℚ) : ℚ :=
  (arr.map fun v => (v - arr.sum / (arr.length : ℚ)) ^ 2).sum / (arr.length : ℚ)

/-- `StudentModel.getPerformanceConsistency` (model.js 128-134):
population variance of the trailing 5-window against threshold 2. -/
def getPerformanceConsistency (performanceHistory : List ℚ) : String :=
  if (jsSliceLast 5 performanceHistory).length < 2 then "high"
  else if popVariance (jsSliceLast 5 performanceHistory) ≤ 2 then "high" else "low"

example : calculatePerformanceScore (some (38/10)) (some 92) (some 85) = 318/5 := by
  norm_num [calculatePerformanceScore, round_eq]
example : appendSample [50] (50 + 4/10000) = [50] := by
  norm_num [appendSample, jsSliceLast, abs_le]
example : getPerformanceTrend [40, 45, 55] = "up" := by
  norm_num [getPerformanceTrend, jsSliceLast]
example : getPerformanceTrend [50, 50] = "stable" := by
  norm_num [getPerformanceTrend, jsSliceLast]
example : getPerformanceTrend [5] = "stable" := by
  norm_num [getPerformanceTrend, jsSliceLast]
example : getPerformanceConsistency [50, 50, 50, 50, 50] = "high" := by
  norm_num [getPerformanceConsistency, popVariance, jsSliceLast]
example : getPerformanceConsistency [10, 90, 10, 90, 10] = "low" := by
  norm_num [getPerformanceConsistency, popVariance, jsSliceLast]

/-!
## Tag utilities (`Utils` in the utility section of the source)
-/

/-- `PREDEFINED_TAGS` (single source of truth for student tags). -/
def PREDEFINED_TAGS : List String :=
  ["Scholarship Candidate", "Sports Captain", "Placement Ready",
   "Needs Attention", "Dean\x27s List", "Research Assistant",
   "Club Leader", "Mentorship Program"]

/-- `Utils.normalizeTag`: canonicalize one tag against the predefined
list (case-insensitive); empty/blank input maps to the empty string. -/
def normalizeTag (tag : String) : String :=
  if jsTrim tag = "" then ""
  else
    let t := jsTrim tag
    match PREDEFINED_TAGS.find? (fun p => jsToLower p == jsToLower t) with
    | some found => found
    | none => t

/-- Keep the first occurrence of each element
(`filter((t, i, arr) => arr.indexOf(t) === i)`). -/
def dedupFirstAux : List String → List String → List String
  | _, [] => []
  | seen, x :: xs =>
    if x ∈ seen then dedupFirstAux seen xs
    else x :: dedupFirstAux (x :: seen) xs

/-- See `dedupFirstAux`. -/
def dedupFirst (l : List String) : List String := dedupFirstAux [] l

/-- `Utils.normalizeTags`: normalize, drop empties, de-duplicate
keeping first occurrences. -/
def normalizeTags (tags : List String) : List String :=
  dedupFirst ((tags.map normalizeTag).filter (fun t => t != ""))

/-!
## The record store: `StudentModel` state and its mutating operations

A record holds exactly the fields the verified code paths read.  The
numeric fields hold the parsed value (`none` plays `NaN`).  A
`performanceHistory` that is absent or not an array behaves as `[]` on
every path of the source (`_migratePerformanceHistory`,
`_ensurePerformanceHistory` and `updateStudent` all guard with
`Array.isArray` and fall back to the empty-history branch), so it is
modelled as the empty list.
-/

structure Student where
  id : String
  firstName : String
  lastName : String
  department : String
  tags : List String
  gpa : Option ℚ
  attendance : Option ℚ
  assignmentScore : Option ℚ
  performanceHistory : List ℚ
deriving DecidableEq

/-- `StudentModel._ensurePerformanceHistory` (model.js 102-109). -/
def ensurePerformanceHistory (student : Student) : List ℚ :=
  let history := student.performanceHistory
  let currentScore :=
    calculatePerformanceScore student.gpa student.attendance student.assignmentScore
  let history := if history.length = 0 then [currentScore] else history
  jsSliceLast 5 history

/-- `StudentModel._migratePerformanceHistory` (model.js 20-32), run at
construction time and by `importFromJSON`. -/
def migratePerformanceHistory (students : List Student) : List Student :=
  students.map fun s =>
    if s.performanceHistory = [] then
      { s with performanceHistory :=
          [calculatePerformanceScore s.gpa s.attendance s.assignmentScore] }
    else
      { s with performanceHistory := jsSliceLast 5 s.performanceHistory }

/-- Input of `StudentModel.addStudent`; `id` stands for the
`Utils.generateStudentID(this.nextId)` value computed there. -/
structure NewStudentData where
  id : String
  firstName : String
  lastName : String
  department : String
  tags : List String
  gpa : Option ℚ
  attendance : Option ℚ
  assignmentScore : Option ℚ
deriving DecidableEq

/-- `StudentModel.addStudent` (model.js 53-81), successful path.  The
validation and duplicate-email checks throw before any mutation, so a
failed call leaves the store unchanged and does not appear here. -/
def addStudent (students : List Student) (d : NewStudentData) : List Student :=
  students ++ [{
    id := d.id, firstName := d.firstName, lastName := d.lastName,
    department := d.department, tags := normalizeTags d.tags,
    gpa := d.gpa, attendance := d.attendance,
    assignmentScore := d.assignmentScore,
    performanceHistory :=
      [calculatePerformanceScore d.gpa d.attendance d.assignmentScore] }]

/-- The update payload of `StudentModel.updateStudent`: any subset of
the modelled fields (`none` = field not present in `updates`). -/
structure StudentUpdates where
  id : Option String := none
  firstName : Option String := none
  lastName : Option String := none
  department : Option String := none
  tags : Option (List String) := none
  gpa : Option (Option ℚ) := none
  attendance : Option (Option ℚ) := none
  assignmentScore : Option (Option ℚ) := none
  performanceHistory : Option (List ℚ) := none
deriving DecidableEq

/-- The `{...this.students[index], ...updates}` spread merge of
`updateStudent` (the `updatedAt` timestamp is out of the model). -/
def mergeUpdates (s : Student) (u : StudentUpdates) : Student :=
  { id := u.id.getD s.id, firstName := u.firstName.getD s.firstName,
    lastName := u.lastName.getD s.lastName,
    department := u.department.getD s.department,
    tags := u.tags.getD s.tags, gpa := u.gpa.getD s.gpa,
    attendance := u.attendance.getD s.attendance,
    assignmentScore := u.assignmentScore.getD s.assignmentScore,
    performanceHistory := u.performanceHistory.getD s.performanceHistory }

/-- `StudentModel.updateStudent` (model.js 180-212).  An unknown id
throws before any mutation (modelled as the unchanged store); the
duplicate-email throw likewise happens before any mutation. -/
def updateStudent (students : List Student) (id : String)
    (u : StudentUpdates) : List Student :=
  let i := students.findIdx (fun s => s.id == id)
  if h : i < students.length then
    let merged := mergeUpdates students[i] u
    let newScore :=
      calculatePerformanceScore merged.gpa merged.attendance merged.assignmentScore
    students.set i
      { merged with performanceHistory := appendSample merged.performanceHistory newScore }
  else students

/-- `StudentModel.importFromJSON` (model.js 402-417), successful path:
replace the list and re-run the migration.  Invalid payloads throw
before the assignment. -/
def importFromJSON (data : List Student) : List Student :=
  migratePerformanceHistory data

/-- The record-creating / record-mutating operations of the store. -/
inductive StoreOp where
  | add (d : NewStudentData)
  | update (id : String) (u : StudentUpdates)
  | importJSON (data : List Student)

/-- Apply one store operation. -/
def applyOp (students : List Student) : StoreOp → List Student
  | .add d => addStudent students d
  | .update id u => updateStudent students id u
  | .importJSON data => importFromJSON data

/-- The history invariant of the spec (§3, PerformanceHistory). -/
def histInvariant (students : List Student) : Prop :=
  ∀ s ∈ students, s.performanceHistory ≠ [] ∧ s.performanceHistory.length ≤ 5

/-!
## Claims C1-C6: ScoreEngine and history invariant
-/

/-- C1: `computeScore` returns `gpa*10*0.5 + attendance*0.3 +
assignmentScore*0.2` rounded to 2 decimal places, an input that fails to
parse is treated as 0, and the function is total and depends only on its
three arguments (it is a pure Lean function of exactly those arguments;
the second conjunct exhibits the 2-decimal form of every result). -/
theorem calculatePerformanceScore_spec :
    (∀ gpa attendance assignmentScore : Option ℚ,
      calculatePerformanceScore gpa attendance assignmentScore =
        computeScoreSpec gpa attendance assignmentScore) ∧
    (∀ gpa attendance assignmentScore : Option ℚ,
      ∃ n : ℤ, calculatePerformanceScore gpa attendance assignmentScore = (n : ℚ) / 100) ∧
    (∀ a s : Option ℚ,
      calculatePerformanceScore none a s = calculatePerformanceScore (some 0) a s) ∧
    (∀ g s : Option ℚ,
      calculatePerformanceScore g none s = calculatePerformanceScore g (some 0) s) ∧
    (∀ g a : Option ℚ,
      calculatePerformanceScore g a none = calculatePerformanceScore g a (some 0)) := by
  refine ⟨fun g a s => rfl, fun g a s => ⟨_, rfl⟩, fun a s => rfl, fun g s => rfl,
    fun g a => rfl⟩

/-- C2, counterexample: `computeScore(3.8, 92, 85)` is not `53.0`. -/
theorem calculatePerformanceScore_example_ne_53 :
    calculatePerformanceScore (some (38/10)) (some 92) (some 85) ≠ 53 := by
  norm_num [calculatePerformanceScore, round_eq]

/-- C2, amended: `computeScore(3.8, 92, 85)` equals `63.6`
(`3.8*10*0.5 = 19`, `92*0.3 = 27.6`, `85*0.2 = 17`, sum `63.6`). -/
theorem calculatePerformanceScore_example_63_6 :
    calculatePerformanceScore (some (38/10)) (some 92) (some 85) = 318/5 := by
  norm_num [calculatePerformanceScore, round_eq]

/-- C3: appending to an empty history yields `[s]`; a change of more
than `0.001` against the last entry appends and keeps the trailing 5
(dropping from the front); otherwise the trailing-5 window of the
history is returned unchanged; and `appendSample([50.0], 50.0004)`
is `[50.0]`. -/
theorem appendSample_spec :
    (∀ s : ℚ, appendSample [] s = [s]) ∧
    (∀ (h : List ℚ) (l s : ℚ), h.getLast? = some l → |s - l| > 1/1000 →
      appendSample h s = (h ++ [s]).drop ((h ++ [s]).length - 5)) ∧
    (∀ (h : List ℚ) (l s : ℚ), h.getLast? = some l → ¬(|s - l| > 1/1000) →
      appendSample h s = h.drop (h.length - 5)) ∧
    appendSample [50] (50 + 4/10000) = [50] := by
  refine ⟨fun s => rfl, ?_, ?_, ?_⟩
  · intro h l s hl habs
    simp only [appendSample, hl, jsSliceLast]
    rw [if_pos habs]
  · intro h l s hl habs
    simp only [appendSample, hl, jsSliceLast]
    rw [if_neg habs]
  · norm_num [appendSample, jsSliceLast, abs_le]

/-- Witness for `appendSample_spec` at concrete inputs. -/
theorem appendSample_spec_witness :
    ([10, 20, 30, 40, 50, 60] : List ℚ).getLast? = some 60 ∧
    |(61 : ℚ) - 60| > 1/1000 ∧
    appendSample [10, 20, 30, 40, 50, 60] 61 =
      (([10, 20, 30, 40, 50, 60] : List ℚ) ++ [61]).drop
        ((([10, 20, 30, 40, 50, 60] : List ℚ) ++ [61]).length - 5) := by
  refine ⟨rfl, by norm_num, appendSample_spec.2.1 _ 60 61 rfl (by norm_num)⟩

lemma jsSliceLast_length_le (n : Nat) (l : List α) : (jsSliceLast n l).length ≤ n := by
  simp only [jsSliceLast, List.length_drop]
  omega

lemma jsSliceLast_ne_nil {l : List α} (hl : l ≠ []) (n : Nat) (hn : 0 < n) :
    jsSliceLast n l ≠ [] := by
  apply List.ne_nil_of_length_pos
  have := List.length_pos.mpr hl
  simp only [jsSliceLast, List.length_drop]
  omega

lemma jsSliceLast_of_length_le {l : List α} {n : Nat} (h : l.length ≤ n) :
    jsSliceLast n l = l := by
  have : l.length - n = 0 := by omega
  simp [jsSliceLast, this]

lemma appendSample_eq_cases (h : List ℚ) (s : ℚ) :
    appendSample h s = jsSliceLast 5 (h ++ [s]) ∨
      (h ≠ [] ∧ appendSample h s = jsSliceLast 5 h) := by
  cases hg : h.getLast? with
  | none => left; simp only [appendSample, hg]
  | some l =>
    have hne : h ≠ [] := by
      intro hc; rw [hc] at hg; simp at hg
    by_cases hc : |s - l| > 1/1000
    · left; simp only [appendSample, hg]; rw [if_pos hc]
    · right; exact ⟨hne, by simp only [appendSample, hg]; rw [if_neg hc]⟩

lemma appendSample_ne_nil_length_le (h : List ℚ) (s : ℚ) :
    appendSample h s ≠ [] ∧ (appendSample h s).length ≤ 5 := by
  have happ : (h ++ [s] : List ℚ) ≠ [] := by simp
  rcases appendSample_eq_cases h s with heq | ⟨hne, heq⟩ <;> rw [heq]
  · exact ⟨jsSliceLast_ne_nil happ 5 (by norm_num), jsSliceLast_length_le 5 _⟩
  · exact ⟨jsSliceLast_ne_nil hne 5 (by norm_num), jsSliceLast_length_le 5 _⟩

lemma migratePerformanceHistory_invariant (l : List Student) :
    histInvariant (migratePerformanceHistory l) := by
  intro s hs
  simp only [migratePerformanceHistory, List.mem_map] at hs
  obtain ⟨t, _, rfl⟩ := hs
  split
  · exact ⟨by simp, by simp⟩
  · next hne =>
    exact ⟨jsSliceLast_ne_nil hne 5 (by norm_num), jsSliceLast_length_le 5 _⟩

lemma applyOp_invariant {st : List Student} (inv : histInvariant st) (op : StoreOp) :
    histInvariant (applyOp st op) := by
  cases op with
  | add d =>
    intro s hs
    simp only [applyOp, addStudent, List.mem_append, List.mem_singleton] at hs
    rcases hs with hs | rfl
    · exact inv s hs
    · exact ⟨by simp, by simp⟩
  | update id u =>
    intro s hs
    simp only [applyOp, updateStudent] at hs
    split at hs
    · rcases List.mem_or_eq_of_mem_set hs with hs | rfl
      · exact inv s hs
      · exact appendSample_ne_nil_length_le _ _
    · exact inv s hs
  | importJSON data =>
    exact migratePerformanceHistory_invariant data

lemma foldl_applyOp_invariant {st : List Student} (inv : histInvariant st)
    (ops : List StoreOp) : histInvariant (ops.foldl applyOp st) := by
  induction ops generalizing st with
  | nil => exact inv
  | cons op rest ih => exact ih (applyOp_invariant inv op)

/-- C4: starting from the construction-time migration and applying any
sequence of record-creating/mutating operations, every record's
performance history is non-empty with length at most 5; moreover the
history-append step only ever removes entries from the oldest end (the
result is a suffix of the appended-to or unchanged history), and
removes nothing at all while the bound is not exceeded. -/
theorem performanceHistory_invariant :
    (∀ (init : List Student) (ops : List StoreOp),
      histInvariant (ops.foldl applyOp (migratePerformanceHistory init))) ∧
    (∀ (h : List ℚ) (s : ℚ),
      (List.IsSuffix (appendSample h s) (h ++ [s]) ∨
        List.IsSuffix (appendSample h s) h) ∧
      ((h ++ [s]).length ≤ 5 →
        appendSample h s = h ++ [s] ∨ appendSample h s = h)) := by
  constructor
  · intro init ops
    exact foldl_applyOp_invariant (migratePerformanceHistory_invariant init) ops
  · intro h s
    constructor
    · rcases appendSample_eq_cases h s with heq | ⟨-, heq⟩ <;> rw [heq]
      · exact Or.inl (List.drop_suffix _ _)
      · exact Or.inr (List.drop_suffix _ _)
    · intro hlen
      rcases appendSample_eq_cases h s with heq | ⟨-, heq⟩ <;> rw [heq]
      · exact Or.inl (jsSliceLast_of_length_le hlen)
      · refine Or.inr (jsSliceLast_of_length_le ?_)
        simp at hlen
        omega

/-- A concrete record used to instantiate the invariant theorem. -/
def wStudent : Student :=
  { id := "STU-2025-001", firstName := "Ana", lastName := "Lee",
    department := "Arts", tags := [], gpa := some 3, attendance := some 90,
    assignmentScore := some 80, performanceHistory := [7] }

/-- Witness for `performanceHistory_invariant` at concrete inputs. -/
theorem performanceHistory_invariant_witness :
    (wStudent.performanceHistory ≠ [] ∧ wStudent.performanceHistory.length ≤ 5) ∧
    (appendSample [1, 2] 3 = [1, 2] ++ [3] ∨ appendSample [1, 2] 3 = [1, 2]) := by
  constructor
  · exact performanceHistory_invariant.1 [wStudent] [] wStudent
      (by simp [migratePerformanceHistory, wStudent, jsSliceLast])
  · exact (performanceHistory_invariant.2 [1, 2] 3).2 (by simp)

/-- C5: the trend classification looks only at the trailing window of at
most 3 samples; windows of fewer than 2 samples are `stable`; otherwise
with `d = last - first` of the window the result is `up` iff `d > 0.05`,
`down` iff `d < -0.05` and `stable` iff `-0.05 ≤ d ≤ 0.05`; with the
three concrete examples. -/
theorem getPerformanceTrend_spec :
    (∀ h : List ℚ, getPerformanceTrend h = getPerformanceTrend (jsSliceLast 3 h)) ∧
    (∀ h : List ℚ, (jsSliceLast 3 h).length < 2 → getPerformanceTrend h = "stable") ∧
    (∀ h : List ℚ, 2 ≤ (jsSliceLast 3 h).length →
      ((getPerformanceTrend h = "up" ↔
          (jsSliceLast 3 h).getLastD 0 - (jsSliceLast 3 h).headD 0 > 1/20) ∧
       (getPerformanceTrend h = "down" ↔
          (jsSliceLast 3 h).getLastD 0 - (jsSliceLast 3 h).headD 0 < -(1/20)) ∧
       (getPerformanceTrend h = "stable" ↔
          (-(1/20) ≤ (jsSliceLast 3 h).getLastD 0 - (jsSliceLast 3 h).headD 0 ∧
           (jsSliceLast 3 h).getLastD 0 - (jsSliceLast 3 h).headD 0 ≤ 1/20)))) ∧
    getPerformanceTrend [40, 45, 55] = "up" ∧
    getPerformanceTrend [50, 50] = "stable" ∧
    getPerformanceTrend [5] = "stable" := by
  have hwin : ∀ h : List ℚ, jsSliceLast 3 (jsSliceLast 3 h) = jsSliceLast 3 h :=
    fun h => jsSliceLast_of_length_le (jsSliceLast_length_le 3 h)
  refine ⟨?_, ?_, ?_, ?_, ?_, ?_⟩
  · intro h
    unfold getPerformanceTrend
    rw [hwin]
  · intro h hlen
    unfold getPerformanceTrend
    rw [if_pos hlen]
  · intro h hlen
    unfold getPerformanceTrend
    rw [if_neg (by omega)]
    split_ifs with h1 h2
    · exact ⟨iff_of_true rfl h1, iff_of_false (by decide) (by linarith),
        iff_of_false (by decide) (fun hc => absurd h1 (not_lt.mpr hc.2))⟩
    · exact ⟨iff_of_false (by decide) h1, iff_of_true rfl h2,
        iff_of_false (by decide) (fun hc => absurd h2 (not_lt.mpr hc.1))⟩
    · exact ⟨iff_of_false (by decide) h1, iff_of_false (by decide) h2,
        iff_of_true rfl ⟨not_lt.mp h2, not_lt.mp h1⟩⟩
  · norm_num [getPerformanceTrend, jsSliceLast]
  · norm_num [getPerformanceTrend, jsSliceLast]
  · norm_num [getPerformanceTrend, jsSliceLast]

/-- Witness for `getPerformanceTrend_spec` at concrete inputs. -/
theorem getPerformanceTrend_spec_witness :
    getPerformanceTrend [5] = "stable" ∧
    (getPerformanceTrend [40, 45, 55] = "up" ↔
      (jsSliceLast 3 [(40 : ℚ), 45, 55]).getLastD 0 -
        (jsSliceLast 3 [(40 : ℚ), 45, 55]).headD 0 > 1/20) := by
  refine ⟨getPerformanceTrend_spec.2.1 [5] (by simp [jsSliceLast]), ?_⟩
  exact (getPerformanceTrend_spec.2.2.1 [40, 45, 55] (by simp [jsSliceLast])).1

/-- C6: the consistency classification looks only at the trailing window
of at most 5 samples; windows of fewer than 2 samples are `high`;
otherwise the result is `high` iff the population variance of the window
is at most `2.0`, and `low` otherwise; with the two concrete examples. -/
theorem getPerformanceConsistency_spec :
    (∀ h : List ℚ,
      getPerformanceConsistency h = getPerformanceConsistency (jsSliceLast 5 h)) ∧
    (∀ h : List ℚ, (jsSliceLast 5 h).length < 2 → getPerformanceConsistency h = "high") ∧
    (∀ h : List ℚ, 2 ≤ (jsSliceLast 5 h).length →
      ((getPerformanceConsistency h = "high" ↔ popVariance (jsSliceLast 5 h) ≤ 2) ∧
       (getPerformanceConsistency h = "low" ↔ ¬ popVariance (jsSliceLast 5 h) ≤ 2))) ∧
    getPerformanceConsistency [50, 50, 50, 50, 50] = "high" ∧
    getPerformanceConsistency [10, 90, 10, 90, 10] = "low" := by
  have hwin : ∀ h : List ℚ, jsSliceLast 5 (jsSliceLast 5 h) = jsSliceLast 5 h :=
    fun h => jsSliceLast_of_length_le (jsSliceLast_length_le 5 h)
  refine ⟨?_, ?_, ?_, ?_, ?_⟩
  · intro h
    unfold getPerformanceConsistency
    rw [hwin]
  · intro h hlen
    unfold getPerformanceConsistency
    rw [if_pos hlen]
  · intro h hlen
    unfold getPerformanceConsistency
    rw [if_neg (by omega)]
    split_ifs with h1
    · exact ⟨iff_of_true rfl h1, iff_of_false (by decide) (not_not_intro h1)⟩
    · exact ⟨iff_of_false (by decide) h1, iff_of_true rfl h1⟩
  · norm_num [getPerformanceConsistency, popVariance, jsSliceLast]
  · norm_num [getPerformanceConsistency, popVariance, jsSliceLast]

/-- Witness for `getPerformanceConsistency_spec` at concrete inputs. -/
theorem getPerformanceConsistency_spec_witness :
    getPerformanceConsistency [7] = "high" ∧
    (getPerformanceConsistency [10, 90, 10, 90, 10] = "low" ↔
      ¬ popVariance (jsSliceLast 5 [(10 : ℚ), 90, 10, 90, 10]) ≤ 2) := by
  refine ⟨getPerformanceConsistency_spec.2.1 [7] (by simp [jsSliceLast]), ?_⟩
  exact (getPerformanceConsistency_spec.2.2.1 [10, 90, 10, 90, 10]
    (by simp [jsSliceLast])).2

/-!
## A small regular-expression engine

`AssistantModel.interpretQuery` (model.js 676-729) tests a battery of
JavaScript regular expressions against the lowercased query.  The
pattern language below covers exactly the constructs those literals use:
literals, single-character classes, `*`/`+` over a class, alternation,
optional groups, and the `\b` word boundary.  `matchEnds` returns every
end position of a match starting at `i`, i.e. full nondeterministic
(backtracking-complete) matching, so `test` agrees with
`RegExp.prototype.test`.
-/

/-- JavaScript `\w` = `[A-Za-z0-9_]`. -/
def wordChar (c : Char) : Bool := c.isAlphanum || c = '_'

/-- JavaScript `.`: anything but a line terminator. -/
def dotChar (c : Char) : Bool := !(c = '\n' ∨ c = '\r')

/-- Is the character at position `i` a word character (out of range
counts as non-word)? -/
def wordAt (s : List Char) (i : Nat) : Bool :=
  match s.get? i with
  | some c => wordChar c
  | none => false

/-- JavaScript `\b` at position `i` (between `i - 1` and `i`). -/
def isWordBoundary (s : List Char) (i : Nat) : Bool :=
  (if i = 0 then false else wordAt s (i - 1)) != wordAt s i

inductive Rx where
  | lit (cs : List Char)
  | cls (p : Char → Bool)
  | starC (p : Char → Bool)
  | plusC (p : Char → Bool)
  | seq (a b : Rx)
  | alt (a b : Rx)
  | opt (a : Rx)
  | wb
  | eps

/-- All end positions of a match of `r` on `s` starting at `i`. -/
def Rx.matchEnds : Rx → List Char → Nat → List Nat
  | .eps, _, i => [i]
  | .wb, s, i => if isWordBoundary s i then [i] else []
  | .lit cs, s, i => if (s.drop i).take cs.length == cs then [i + cs.length] else []
  | .cls p, s, i =>
    match s.get? i with
    | some c => if p c then [i + 1] else []
    | none => []
  | .starC p, s, i =>
    (List.range (((s.drop i).takeWhile p).length + 1)).map (i + ·)
  | .plusC p, s, i =>
    (List.range (((s.drop i).takeWhile p).length)).map (i + 1 + ·)
  | .seq a b, s, i => (a.matchEnds s i).flatMap (b.matchEnds s)
  | .alt a b, s, i => a.matchEnds s i ++ b.matchEnds s i
  | .opt a, s, i => i :: a.matchEnds s i

/-- `RegExp.prototype.test`: a match may start at any position. -/
def Rx.test (r : Rx) (s : List Char) : Bool :=
  (List.range (s.length + 1)).any fun i => !(r.matchEnds s i).isEmpty

/-- A literal from a string. -/
def rlit (str : String) : Rx := .lit str.data

/-- `\s+`. -/
def wsPlus : Rx := .plusC jsWsChar

/-- `\s*`. -/
def wsStar : Rx := .starC jsWsChar

/-- `\d+`. -/
def digitsPlus : Rx := .plusC Char.isDigit

/-- `.*`. -/
def dotStar : Rx := .starC dotChar

/-- `\w+`. -/
def wordPlus : Rx := .plusC wordChar

/-- Sequence a list of patterns. -/
def rseq (l : List Rx) : Rx := l.foldr .seq .eps

/-!
### The regular-expression literals of `interpretQuery`, in source order
-/

/-- `/\bhow many\b.*\b(at )?risk\b|\bat risk\b|\bstudents at risk\b|\brisk count\b/i`
(model.js 695). -/
def atRiskPattern : Rx :=
  .alt (rseq [.wb, rlit "how many", .wb, dotStar, .wb, .opt (rlit "at "), rlit "risk", .wb])
  (.alt (rseq [.wb, rlit "at risk", .wb])
  (.alt (rseq [.wb, rlit "students at risk", .wb])
        (rseq [.wb, rlit "risk count", .wb])))

/-- `/\bshow\b.*\bengineering\b|\bengineering\s+students\b|\b(computer\s+science|business|arts|science)\s+students\b/i`
(model.js 698). -/
def departmentPattern : Rx :=
  .alt (rseq [.wb, rlit "show", .wb, dotStar, .wb, rlit "engineering", .wb])
  (.alt (rseq [.wb, rlit "engineering", wsPlus, rlit "students", .wb])
        (rseq [.wb,
          .alt (rseq [rlit "computer", wsPlus, rlit "science"])
            (.alt (rlit "business") (.alt (rlit "arts") (rlit "science"))),
          wsPlus, rlit "students", .wb]))

/-- `/\bwho\s+has\s+(the\s+)?highest\s+gpa\b|\bhighest\s+gpa\b|\btop\s+gpa\b|\bbest\s+gpa\b/i`
(model.js 702). -/
def highestGpaPattern : Rx :=
  .alt (rseq [.wb, rlit "who", wsPlus, rlit "has", wsPlus,
    .opt (rseq [rlit "the", wsPlus]), rlit "highest", wsPlus, rlit "gpa", .wb])
  (.alt (rseq [.wb, rlit "highest", wsPlus, rlit "gpa", .wb])
  (.alt (rseq [.wb, rlit "top", wsPlus, rlit "gpa", .wb])
        (rseq [.wb, rlit "best", wsPlus, rlit "gpa", .wb])))

/-- `/\battendance\s+below\s+(\d+)\s*%?|\bbelow\s+(\d+)\s*%\s*attendance\b|\blow\s+attendance\b/i`
(model.js 705). -/
def attendancePattern : Rx :=
  .alt (rseq [.wb, rlit "attendance", wsPlus, rlit "below", wsPlus, digitsPlus,
    wsStar, .opt (rlit "%")])
  (.alt (rseq [.wb, rlit "below", wsPlus, digitsPlus, wsStar, rlit "%", wsStar,
    rlit "attendance", .wb])
        (rseq [.wb, rlit "low", wsPlus, rlit "attendance", .wb]))

/-- `/\boverall\s+performance\s+summary\b|\bperformance\s+summary\b|\bsummary\b/i`
(model.js 710). -/
def summaryPattern : Rx :=
  .alt (rseq [.wb, rlit "overall", wsPlus, rlit "performance", wsPlus, rlit "summary", .wb])
  (.alt (rseq [.wb, rlit "performance", wsPlus, rlit "summary", .wb])
        (rseq [.wb, rlit "summary", .wb]))

/-- `/\bplacement\s+ready\b|\bplacement\s+students\b/i` (model.js 713). -/
def placementPattern : Rx :=
  .alt (rseq [.wb, rlit "placement", wsPlus, rlit "ready", .wb])
       (rseq [.wb, rlit "placement", wsPlus, rlit "students", .wb])

/-- `/\bis\s+(\w+)\s+improving\b|\b(\w+)\s+improvement\b|\bhow\s+is\s+(\w+)\s+doing\b/i`
(model.js 716). -/
def trendPattern : Rx :=
  .alt (rseq [.wb, rlit "is", wsPlus, wordPlus, wsPlus, rlit "improving", .wb])
  (.alt (rseq [.wb, wordPlus, wsPlus, rlit "improvement", .wb])
        (rseq [.wb, rlit "how", wsPlus, rlit "is", wsPlus, wordPlus, wsPlus,
          rlit "doing", .wb]))

/-- `/\bdepartment\s+comparison\b|\bcompare\s+departments\b|\bwhich\s+department\s+has\s+most\b/i`
(model.js 721). -/
def deptComparisonPattern : Rx :=
  .alt (rseq [.wb, rlit "department", wsPlus, rlit "comparison", .wb])
  (.alt (rseq [.wb, rlit "compare", wsPlus, rlit "departments", .wb])
        (rseq [.wb, rlit "which", wsPlus, rlit "department", wsPlus, rlit "has",
          wsPlus, rlit "most", .wb]))

/-- `/\balerts?\b|\battention\b|\bneed\s+mentor\b/i` (model.js 724). -/
def alertsPattern : Rx :=
  .alt (rseq [.wb, rlit "alert", .opt (rlit "s"), .wb])
  (.alt (rseq [.wb, rlit "attention", .wb])
        (rseq [.wb, rlit "need", wsPlus, rlit "mentor", .wb]))

/-!
### Parameter extraction of `interpretQuery`
-/

/-- `parseInt` on a run of decimal digits. -/
def digitsToNat (cs : List Char) : Nat :=
  cs.foldl (fun n c => n * 10 + (c.toNat - 48)) 0

/-- `lower.match(/(\d+)\s*%?/)` (model.js 706): the first maximal digit
run of the text, parsed; `none` when the text has no digit. -/
def firstDigitRun : List Char → Option Nat
  | [] => none
  | c :: rest =>
    if c.isDigit then some (digitsToNat (c :: rest.takeWhile Char.isDigit))
    else firstDigitRun rest

/-- Match a literal at position `i`, returning the end position. -/
def litAt (s : List Char) (i : Nat) (cs : List Char) : Option Nat :=
  if (s.drop i).take cs.length == cs then some (i + cs.length) else none

/-- Match `\s+` greedily at position `i`. -/
def wsPlusAt (s : List Char) (i : Nat) : Option Nat :=
  let k := ((s.drop i).takeWhile jsWsChar).length
  if k = 0 then none else some (i + k)

/-- Match `(\w+)` greedily at position `i`, returning capture and end. -/
def wordRunAt (s : List Char) (i : Nat) : Option (List Char × Nat) :=
  let run := (s.drop i).takeWhile wordChar
  if run.length = 0 then none else some (run, i + run.length)

/-- The `(\w+)\s+improving\b` tail shared by both branches of the first
alternative of the name-capturing regex (model.js 717).  Greedy maximal
munch is exact here: `\w`, `\s` and the following literal have disjoint
first-character sets, so no backtracking into shorter runs can succeed. -/
def trendTailAt (s : List Char) (j : Nat) : Option (List Char) :=
  match wordRunAt s j with
  | some (run, j2) =>
    match wsPlusAt s j2 with
    | some j3 =>
      match litAt s j3 "improving".data with
      | some j4 => if isWordBoundary s j4 then some run else none
      | none => none
    | none => none
  | none => none

/-- Alternative 1 of the capturing regex, `\b(is\s+)?(\w+)\s+improving\b`,
at start `i`; the greedy optional group is tried present-first. -/
def trendAlt1At (s : List Char) (i : Nat) : Option (List Char) :=
  if isWordBoundary s i then
    let withIs :=
      match litAt s i "is".data with
      | some j =>
        match wsPlusAt s j with
        | some j2 => trendTailAt s j2
        | none => none
      | none => none
    match withIs with
    | some r => some r
    | none => trendTailAt s i
  else none

/-- Alternative 2, `\b(\w+)\s+improvement\b`, at start `i`. -/
def trendAlt2At (s : List Char) (i : Nat) : Option (List Char) :=
  if isWordBoundary s i then
    match wordRunAt s i with
    | some (run, j) =>
      match wsPlusAt s j with
      | some j2 =>
        match litAt s j2 "improvement".data with
        | some j3 => if isWordBoundary s j3 then some run else none
        | none => none
      | none => none
    | none => none
  else none

/-- Alternative 3, `\bhow\s+is\s+(\w+)\s+doing\b`, at start `i`. -/
def trendAlt3At (s : List Char) (i : Nat) : Option (List Char) :=
  if isWordBoundary s i then
    match litAt s i "how".data with
    | some j1 =>
      match wsPlusAt s j1 with
      | some j2 =>
        match litAt s j2 "is".data with
        | some j3 =>
          match wsPlusAt s j3 with
          | some j4 =>
            match wordRunAt s j4 with
            | some (run, j5) =>
              match wsPlusAt s j5 with
              | some j6 =>
                match litAt s j6 "doing".data with
                | some j7 => if isWordBoundary s j7 then some run else none
                | none => none
              | none => none
            | none => none
          | none => none
        | none => none
      | none => none
    | none => none
  else none

/-- The name extraction of the `student_trend` branch (model.js 717-718):
`match[2] || match[3] || match[4]` of the leftmost match, alternatives
tried in order at each start position, `''` when there is no match. -/
def extractTrendName (s : List Char) : String :=
  match (List.range (s.length + 1)).findSome? (fun i =>
    match trendAlt1At s i with
    | some r => some r
    | none =>
      match trendAlt2At s i with
      | some r => some r
      | none => trendAlt3At s i) with
  | some run => ⟨run⟩
  | none => ""

/-- `hay.includes(needle)` on strings. -/
def strIncludes (hay needle : String) : Bool :=
  (List.range (hay.data.length + 1)).any fun i =>
    (hay.data.drop i).take needle.data.length == needle.data

/-- The keyword table of `AssistantModel._extractDepartment`
(model.js 731-744), in object-insertion order. -/
def departmentMap : List (String × String) :=
  [("engineering", "Engineering"), ("computer science", "Computer Science"),
   ("cs", "Computer Science"), ("business", "Business"), ("arts", "Arts"),
   ("science", "Science")]

/-- `AssistantModel._extractDepartment`: the first table entry whose key
occurs in the lowercased text wins; default `"Engineering"`. -/
def extractDepartment (lower : String) : String :=
  match departmentMap.find? (fun kv => strIncludes lower kv.1) with
  | some kv => kv.2
  | none => "Engineering"

/-- The closed set of intents (spec §3), each with its parameters. -/
inductive Intent where
  | summary
  | at_risk
  | department (department : String)
  | highest_gpa
  | low_attendance (threshold : Nat)
  | placement_ready
  | student_trend (firstName : String)
  | department_comparison
  | alerts
  | unknown
deriving DecidableEq

/-- The `{ intent, params, rawQuery }` result of `interpretQuery`
(params folded into the `Intent` variant). -/
structure Interpreted where
  intent : Intent
  rawQuery : String
deriving DecidableEq

/-- `AssistantModel.interpretQuery` (model.js 676-729): slash commands by
exact match on the lowercased trimmed text, then the regular-expression
rules in source order, else `unknown`. -/
def interpretQuery (rawQuery : String) : Interpreted :=
  let q := jsTrim rawQuery
  let lower := jsToLower q
  let l := lower.data
  if lower = "/summary" then ⟨.summary, q⟩
  else if lower = "/risk" then ⟨.at_risk, q⟩
  else if lower = "/top" then ⟨.highest_gpa, q⟩
  else if lower = "/alerts" then ⟨.alerts, q⟩
  else if atRiskPattern.test l then ⟨.at_risk, q⟩
  else if departmentPattern.test l then ⟨.department (extractDepartment lower), q⟩
  else if highestGpaPattern.test l then ⟨.highest_gpa, q⟩
  else if attendancePattern.test l then ⟨.low_attendance ((firstDigitRun l).getD 70), q⟩
  else if summaryPattern.test l && !(lower.startsWith "/") then ⟨.summary, q⟩
  else if placementPattern.test l then ⟨.placement_ready, q⟩
  else if trendPattern.test l then ⟨.student_trend (extractTrendName l), q⟩
  else if deptComparisonPattern.test l then ⟨.department_comparison, q⟩
  else if alertsPattern.test l then ⟨.alerts, q⟩
  else ⟨.unknown, q⟩

example : interpretQuery "/summary" = ⟨.summary, "/summary"⟩ := by decide
example : interpretQuery "/risk" = ⟨.at_risk, "/risk"⟩ := by decide
example : (interpretQuery "How many students are at risk?").intent = .at_risk := by decide
example : interpretQuery "attendance below 65%" =
    ⟨.low_attendance 65, "attendance below 65%"⟩ := by decide
example : (interpretQuery "Show Engineering students").intent =
    .department "Engineering" := by decide
example : (interpretQuery "low attendance").intent = .low_attendance 70 := by decide
example : (interpretQuery "asdkljasd").intent = .unknown := by decide
example : (interpretQuery "Is Rahul improving?").intent = .student_trend "rahul" := by decide

/-!
## `StudentModel` read paths used by the assistant
-/

/-- `StudentModel.getAllStudents` (model.js 157-163): a deep clone of
the stored list with tags normalized and the performance history
ensured.  Cloning is the identity on immutable Lean values. -/
def getAllStudents (students : List Student) : List Student :=
  students.map fun s =>
    { s with tags := normalizeTags s.tags,
             performanceHistory := ensurePerformanceHistory s }

/-- The aggregate statistics of `StudentModel.getStatistics`
(model.js 372-386) restricted to the fields the assistant reads
(`totalStudents`, `departmentCount`, `avgAttendance`,
`departmentDistribution`); the remaining distribution fields feed only
the chart views, which are outside this model. -/
structure Stats where
  totalStudents : Nat
  departmentCount : Nat
  avgAttendance : Option ℤ
  departmentDistribution : List (String × Nat)
deriving DecidableEq

/-- One step of `Utils.getDepartmentDistribution`'s object-as-counter
accumulation (object keys keep insertion order). -/
def addDeptCount (acc : List (String × Nat)) (d : String) : List (String × Nat) :=
  if acc.any (fun kv => kv.1 == d) then
    acc.map (fun kv => if kv.1 == d then (kv.1, kv.2 + 1) else kv)
  else acc ++ [(d, 1)]

/-- `Utils.getDepartmentDistribution`. -/
def getDepartmentDistribution (students : List Student) : List (String × Nat) :=
  students.foldl (fun acc s => addDeptCount acc s.department) []

/-- `StudentModel.getStatistics` composed with `Utils.calculateStats`:
`departmentCount` is the number of distinct departments,
`avgAttendance` is `Math.round` of the mean of `parseInt(s.attendance)`
(`NaN` poisons it) and `0` for an empty store. -/
def getStatistics (students : List Student) : Stats :=
  { totalStudents := students.length,
    departmentCount := (dedupFirst (students.map (fun s => s.department))).length,
    avgAttendance :=
      if students.length = 0 then some 0
      else (jsSumInt (students.map (fun s => jsParseInt s.attendance))).map
        (fun t => round ((t : ℚ) / (students.length : ℚ))),
    departmentDistribution := getDepartmentDistribution students }

/-!
## `AssistantModel` (model.js 491-886)

Every method below takes the record store and returns its result
together with the store it leaves behind, mirroring, method by method,
which source paths write to `model.students` (none of the assistant's
read paths do: they go through `getAllStudents`/`getStatistics`, which
deep-clone).  The `typeof model === 'undefined'` guards cannot fire
here because the store is an explicit argument.
-/

/-- `this.riskAttendanceThreshold` (model.js 495). -/
def riskAttendanceThreshold : ℤ := 70

/-- `this.riskGPAThreshold` (model.js 496). -/
def riskGPAThreshold : ℚ := 5/2

/-- `AssistantModel.getStudents` (model.js 502-505). -/
def getStudentsS (m : List Student) : List Student × List Student :=
  (getAllStudents m, m)

/-- `AssistantModel.getStats` (model.js 510-513). -/
def getStatsS (m : List Student) : Stats × List Student :=
  (getStatistics m, m)

/-- `AssistantModel.getAtRiskStudents` (model.js 518-526). -/
def getAtRiskStudentsS (m : List Student) : List Student × List Student :=
  let (students, m1) := getStudentsS m
  (students.filter fun s =>
    (match jsParseInt s.attendance with
     | some att => decide (att < riskAttendanceThreshold)
     | none => false) ||
    (match s.gpa with
     | some gpa => decide (gpa < riskGPAThreshold)
     | none => false), m1)

/-- `AssistantModel.getStudentsByDepartment` (model.js 531-538). -/
def getStudentsByDepartmentS (m : List Student) (deptName : String) :
    List Student × List Student :=
  let (students, m1) := getStudentsS m
  let term := jsToLower (jsTrim deptName)
  if term = "" then (students, m1)
  else (students.filter fun s => strIncludes (jsToLower s.department) term, m1)

/-- `AssistantModel.getHighestGPAStudents` (model.js 543-548):
`Math.max` over `parseFloat(s.gpa) || 0`, then all records whose
`parseFloat(s.gpa)` equals that maximum. -/
def getHighestGPAStudentsS (m : List Student) : List Student × List Student :=
  let (students, m1) := getStudentsS m
  match students.map (fun s => s.gpa.getD 0) with
  | [] => ([], m1)
  | g :: gs =>
    let maxGpa := gs.foldl max g
    (students.filter fun s =>
      match s.gpa with
      | some gpa => decide (gpa = maxGpa)
      | none => false, m1)

/-- `AssistantModel.getLowAttendanceStudents` (model.js 553-560). -/
def getLowAttendanceStudentsS (m : List Student) (threshold : ℤ) :
    List Student × List Student :=
  let (students, m1) := getStudentsS m
  (students.filter fun s =>
    match jsParseInt s.attendance with
    | some att => decide (att < threshold)
    | none => false, m1)

/-- `AssistantModel.getPlacementReadyStudents` (model.js 565-577). -/
def getPlacementReadyStudentsS (m : List Student) : List Student × List Student :=
  let (students, m1) := getStudentsS m
  (students.filter fun s =>
    (s.tags.any fun t => jsToLower t == jsToLower "Placement Ready") ||
    (decide (s.gpa.getD 0 ≥ 7/2) && decide ((jsParseInt s.attendance).getD 0 ≥ 85)), m1)

/-- `AssistantModel.findStudentByName` (model.js 582-590). -/
def findStudentByNameS (m : List Student) (firstName : String) :
    Option Student × List Student :=
  let term := jsToLower (jsTrim firstName)
  if term = "" then (none, m)
  else
    let (students, m1) := getStudentsS m
    (students.find? fun s =>
      strIncludes (jsToLower s.firstName) term ||
      strIncludes (jsToLower s.lastName) term, m1)

/-- `AssistantModel.getStudentTrendSummary` (model.js 595-611); the
student argument is already a clone, so this reads no store state. -/
def getStudentTrendSummary (student : Student) : String :=
  let history := ensurePerformanceHistory student
  let trend := getPerformanceTrend history
  let name := jsTrim (student.firstName ++ " " ++ student.lastName)
  if trend = "up" then
    name ++ " is improving. Performance has gone up over recent updates."
  else if trend = "down" then
    name ++ " shows a declining trend in the last few records. Consider reaching out."
  else
    name ++ " has been stable recently with no significant change in performance."

/-- `AssistantModel.getDepartmentComparison` (model.js 625-636); the
`slice().sort(desc)[0]` pick of the top department is the first
maximal-count entry (`Array.prototype.sort` is stable). -/
def getDepartmentComparisonS (m : List Student) :
    (String × List (String × Nat)) × List Student :=
  let (stats, m1) := getStatsS m
  if stats.departmentDistribution.isEmpty then
    (("No department data available.", []), m1)
  else
    let dist := stats.departmentDistribution
    let total := (dist.map (fun d => d.2)).sum
    let top := dist.foldl (fun best d => if d.2 > best.2 then d else best)
      (dist.headD ("", 0))
    (("There are " ++ toString dist.length ++ " department(s) with " ++
      toString total ++ " total students. " ++ top.1 ++
      " has the most students (" ++ toString top.2 ++ ").", dist), m1)

/-- Decimal rendering of a JavaScript number for template interpolation:
exact for integers and `NaN`; non-integral rationals are rendered as
`num/den`, a deviation from float formatting no verified claim uses. -/
def displayNum (v : Option ℚ) : String :=
  match v with
  | none => "NaN"
  | some q =>
    if q.den = 1 then toString q.num
    else toString q.num ++ "/" ++ toString q.den

/-- Rendering of an integer-or-`NaN` value. -/
def displayInt (v : Option ℤ) : String :=
  match v with
  | none => "NaN"
  | some z => toString z

/-- `AssistantModel.getOverallPerformanceSummary` (model.js 641-660). -/
def getOverallPerformanceSummaryS (m : List Student) : String × List Student :=
  let (students, m1) := getStudentsS m
  let (stats, m2) := getStatsS m1
  if students.isEmpty then
    ("There are no students in the system yet. Add students to see analytics.", m2)
  else
    let (atRiskList, m3) := getAtRiskStudentsS m2
    let (placementList, m4) := getPlacementReadyStudentsS m3
    let atRisk := atRiskList.length
    let placementReady := placementList.length
    let msg := "You have **" ++ toString stats.totalStudents ++
      "** students across **" ++ toString stats.departmentCount ++
      "** departments. Average attendance is **" ++
      displayInt stats.avgAttendance ++ "%**. "
    let msg := if atRisk > 0 then
        msg ++ toString atRisk ++ " student(s) are currently at risk (low GPA or attendance). "
      else msg
    let msg := if placementReady > 0 then
        msg ++ toString placementReady ++ " are placement-ready or high performers."
      else msg ++ "Consider tagging placement-ready students for tracking."
    (msg, m4)

/-- `AssistantModel.getAutoAlertSuggestion` (model.js 665-670). -/
def getAutoAlertSuggestionS (m : List Student) : Option String × List Student :=
  let (atRisk, m1) := getAtRiskStudentsS m
  if atRisk.isEmpty then (none, m1)
  else
    let n := atRisk.length
    (some ("There " ++ (if n = 1 then "is" else "are") ++ " **" ++ toString n ++
      "** student" ++ (if n = 1 then "" else "s") ++
      " needing mentor attention. Ask me \"Who is at risk?\" or use **/risk** to see them."), m1)

/-- The optional `{ type, payload }` dashboard action of a response. -/
inductive DashboardAction where
  | filter_at_risk
  | filter_department (department : String)
  | filter_tag (tag : String)
deriving DecidableEq

/-- The `{ text, action? }` result of `AssistantModel.getResponse`. -/
structure Response where
  text : String
  action : Option DashboardAction := none
deriving DecidableEq

/-- `${s.firstName} ${s.lastName} (${s.id})`, the listing format of the
`at_risk`, `department` and `placement_ready` branches. -/
def nameWithId (s : Student) : String :=
  s.firstName ++ " " ++ s.lastName ++ " (" ++ s.id ++ ")"

/-- `AssistantModel.getResponse` (model.js 750-858), with the store
threaded through every data access exactly as the source methods touch
it. -/
def getResponse (m : List Student) (interpreted : Interpreted) :
    Response × List Student :=
  match interpreted.intent with
  | .summary =>
    let (text, m1) := getOverallPerformanceSummaryS m
    ({ text := text }, m1)
  | .at_risk =>
    let (list, m1) := getAtRiskStudentsS m
    if list.length = 0 then
      ({ text := "No students are currently at risk. Great job!" }, m1)
    else
      let names := (list.take 10).map nameWithId
      let more := if list.length > 10 then
          " ... and " ++ toString (list.length - 10) ++ " more." else ""
      let text := "**" ++ toString list.length ++
        "** student(s) are at risk (attendance < 70% or GPA < 2.5):\n\n" ++
        String.intercalate "\n" names ++ more ++
        "\n\nI can apply the \"Needs Attention\" filter on the Students page if you’d like."
      ({ text := text, action := some .filter_at_risk }, m1)
  | .department dept0 =>
    let dept := if dept0 = "" then "Engineering" else dept0
    let (list, m1) := getStudentsByDepartmentS m dept
    if list.length = 0 then
      ({ text := "No students found in **" ++ dept ++ "**." }, m1)
    else
      let text := "Found **" ++ toString list.length ++ "** student(s) in **" ++
        dept ++ "**:\n\n" ++
        String.intercalate "\n" ((list.take 8).map nameWithId) ++
        (if list.length > 8 then
          "\n... and " ++ toString (list.length - 8) ++ " more." else "") ++
        "\n\nI can show them on the Students page."
      ({ text := text, action := some (.filter_department dept) }, m1)
  | .highest_gpa =>
    let (list, m1) := getHighestGPAStudentsS m
    match list with
    | [] => ({ text := "No student data available." }, m1)
    | s0 :: _ =>
      let names := list.map nameWithId
      ({ text := "Highest GPA is **" ++ displayNum s0.gpa ++ "** — " ++
        String.intercalate ", " names ++ "." }, m1)
  | .low_attendance threshold =>
    let (list, m1) := getLowAttendanceStudentsS m (threshold : ℤ)
    if list.length = 0 then
      ({ text := "No students have attendance below " ++ toString threshold ++ "%." }, m1)
    else
      ({ text := "**" ++ toString list.length ++
        "** student(s) have attendance below **" ++ toString threshold ++ "%**:\n\n" ++
        String.intercalate "\n" ((list.take 8).map fun s =>
          s.firstName ++ " " ++ s.lastName ++ " — " ++ displayNum s.attendance ++ "%") ++
        (if list.length > 8 then
          "\n... and " ++ toString (list.length - 8) ++ " more." else "") }, m1)
  | .placement_ready =>
    let (list, m1) := getPlacementReadyStudentsS m
    if list.length = 0 then
      ({ text := "No placement-ready students found. Tag students as \"Placement Ready\" or look for GPA ≥ 3.5 and attendance ≥ 85%." }, m1)
    else
      let text := "**" ++ toString list.length ++ "** placement-ready student(s):\n\n" ++
        String.intercalate "\n" ((list.take 8).map nameWithId) ++
        (if list.length > 8 then
          "\n... and " ++ toString (list.length - 8) ++ " more." else "")
      ({ text := text, action := some (.filter_tag "Placement Ready") }, m1)
  | .student_trend name0 =>
    let firstName := jsTrim name0
    if firstName = "" then
      ({ text := "Please mention a student\x27s first name, e.g. \"Is Rahul improving?\"" }, m)
    else
      let (student?, m1) := findStudentByNameS m firstName
      match student? with
      | none =>
        ({ text := "I couldn\x27t find a student named \"" ++ firstName ++
          "\". Try another name." }, m1)
      | some student => ({ text := getStudentTrendSummary student }, m1)
  | .department_comparison =>
    let (sd, m1) := getDepartmentComparisonS m
    let lines := if sd.2.length ≠ 0 then
        "\n\n" ++ String.intercalate "\n"
          (sd.2.map fun d => "• " ++ d.1 ++ ": " ++ toString d.2)
      else ""
    ({ text := sd.1 ++ lines }, m1)
  | .alerts =>
    let (suggestion, m1) := getAutoAlertSuggestionS m
    match suggestion with
    | some text => ({ text := text }, m1)
    | none => ({ text := "No urgent alerts. All students are within safe thresholds." }, m1)
  | .unknown =>
    ({ text := "I can help with:\n\n• **At risk** — \"How many students are at risk?\" or /risk\n" ++
      "• **Department** — \"Show Engineering students\"\n" ++
      "• **Top performer** — \"Who has highest GPA?\" or /top\n" ++
      "• **Attendance** — \"Students with attendance below 70%\"\n" ++
      "• **Summary** — \"Overall performance summary\" or /summary\n" ++
      "• **Placement** — \"Show placement ready students\"\n" ++
      "• **Trend** — \"Is Rahul improving?\"\n" ++
      "• **Departments** — \"Department comparison\"\n" ++
      "• **Alerts** — /alerts" }, m)

/-!
## Claims C7-C10: the assistant
-/

lemma strData_append (a b : String) : (a ++ b).data = a.data ++ b.data := rfl

/-- The single record of the end-to-end scenario of spec §8: GPA 2.0,
attendance 60%. -/
def atRiskDemoStudent : Student :=
  { id := "STU-2025-001", firstName := "John", lastName := "Doe",
    department := "Engineering", tags := [], gpa := some 2,
    attendance := some 60, assignmentScore := some 75,
    performanceHistory := [40] }

/-- The store of the end-to-end scenario. -/
def atRiskDemoStore : List Student := [atRiskDemoStudent]

lemma atRiskDemo_pair :
    getAtRiskStudentsS atRiskDemoStore = ([atRiskDemoStudent], atRiskDemoStore) := by
  norm_num [getAtRiskStudentsS, getStudentsS, getAllStudents, atRiskDemoStore,
    atRiskDemoStudent, normalizeTags, dedupFirst, dedupFirstAux,
    ensurePerformanceHistory, jsSliceLast, jsParseInt, riskAttendanceThreshold,
    List.filter]

set_option maxRecDepth 100000 in
/-- C7: on the `at_risk` intent with a non-empty at-risk set the
response's action is `filter_at_risk` and the text states the at-risk
count and lists the first at-most-10 names, with a `... and N more.`
suffix exactly when more than 10 match; and in the end-to-end scenario
(one student at GPA 2.0, attendance 60%) `interpret` yields `at_risk`
and the response text mentions count 1 with that action. -/
theorem atRisk_response_spec :
    (∀ (m : List Student) (itp : Interpreted), itp.intent = .at_risk →
      (getAtRiskStudentsS m).1 ≠ [] →
      ((getResponse m itp).1.action = some DashboardAction.filter_at_risk ∧
       ∃ more,
         (getResponse m itp).1.text = "**" ++ toString (getAtRiskStudentsS m).1.length ++
           "** student(s) are at risk (attendance < 70% or GPA < 2.5):\n\n" ++
           String.intercalate "\n" (((getAtRiskStudentsS m).1.take 10).map nameWithId) ++
           more ++
           "\n\nI can apply the \"Needs Attention\" filter on the Students page if you’d like." ∧
         (more = "" ↔ (getAtRiskStudentsS m).1.length ≤ 10) ∧
         (10 < (getAtRiskStudentsS m).1.length →
           more = " ... and " ++ toString ((getAtRiskStudentsS m).1.length - 10) ++ " more."))) ∧
    interpretQuery "How many students are at risk?" =
      ⟨.at_risk, "How many students are at risk?"⟩ ∧
    strIncludes (getResponse atRiskDemoStore
      (interpretQuery "How many students are at risk?")).1.text "1" = true ∧
    (getResponse atRiskDemoStore
      (interpretQuery "How many students are at risk?")).1.action =
      some DashboardAction.filter_at_risk := by
  have hitp : interpretQuery "How many students are at risk?" =
      ⟨.at_risk, "How many students are at risk?"⟩ := by decide
  refine ⟨?_, hitp, ?_, ?_⟩
  · intro m itp hi hne
    obtain ⟨intent, raw⟩ := itp
    simp only at hi
    subst hi
    rcases hp : getAtRiskStudentsS m with ⟨list, m1⟩
    rw [hp] at hne
    simp only at hne
    have h0 : ¬(list.length = 0) := by
      simpa [List.length_eq_zero] using hne
    simp only [getResponse, hp]
    rw [if_neg h0]
    refine ⟨rfl, _, rfl, ?_, ?_⟩
    · by_cases h10 : list.length > 10
      · rw [if_pos h10]
        refine iff_of_false (fun hc => ?_) (by omega)
        have := congrArg String.data hc
        simp [strData_append] at this
      · rw [if_neg h10]
        exact iff_of_true rfl (by omega)
    · intro h10
      rw [if_pos h10]
  · rw [hitp]
    simp only [getResponse, atRiskDemo_pair]
    decide
  · rw [hitp]
    simp only [getResponse, atRiskDemo_pair]
    decide

/-- Witness for `atRisk_response_spec`: its hypotheses hold at the
demo store and the theorem applies there. -/
theorem atRisk_response_spec_witness :
    (⟨Intent.at_risk, "/risk"⟩ : Interpreted).intent = Intent.at_risk ∧
    (getAtRiskStudentsS atRiskDemoStore).1 ≠ [] ∧
    (getResponse atRiskDemoStore ⟨Intent.at_risk, "/risk"⟩).1.action =
      some DashboardAction.filter_at_risk := by
  have hne : (getAtRiskStudentsS atRiskDemoStore).1 ≠ [] := by
    rw [atRiskDemo_pair]; simp
  exact ⟨rfl, hne, (atRisk_response_spec.1 atRiskDemoStore _ rfl hne).1⟩

/-- Case analysis of `interpretQuery`: every result is one of the ten
intents, and the three parameter-carrying intents carry exactly the
extraction of the lowercased trimmed text. -/
lemma interpretQuery_intent_cases (q : String) :
    (interpretQuery q).intent =
      .low_attendance ((firstDigitRun (jsToLower (jsTrim q)).data).getD 70) ∨
    (interpretQuery q).intent = .department (extractDepartment (jsToLower (jsTrim q))) ∨
    (interpretQuery q).intent = .student_trend (extractTrendName (jsToLower (jsTrim q)).data) ∨
    (interpretQuery q).intent = .summary ∨
    (interpretQuery q).intent = .at_risk ∨
    (interpretQuery q).intent = .highest_gpa ∨
    (interpretQuery q).intent = .placement_ready ∨
    (interpretQuery q).intent = .department_comparison ∨
    (interpretQuery q).intent = .alerts ∨
    (interpretQuery q).intent = .unknown := by
  simp only [interpretQuery]
  by_cases c1 : jsToLower (jsTrim q) = "/summary"
  · rw [if_pos c1]; exact .inr (.inr (.inr (.inl rfl)))
  rw [if_neg c1]
  by_cases c2 : jsToLower (jsTrim q) = "/risk"
  · rw [if_pos c2]; exact .inr (.inr (.inr (.inr (.inl rfl))))
  rw [if_neg c2]
  by_cases c3 : jsToLower (jsTrim q) = "/top"
  · rw [if_pos c3]; exact .inr (.inr (.inr (.inr (.inr (.inl rfl)))))
  rw [if_neg c3]
  by_cases c4 : jsToLower (jsTrim q) = "/alerts"
  · rw [if_pos c4]
    exact .inr (.inr (.inr (.inr (.inr (.inr (.inr (.inr (.inl rfl))))))))
  rw [if_neg c4]
  by_cases c5 : atRiskPattern.test (jsToLower (jsTrim q)).data = true
  · rw [if_pos c5]; exact .inr (.inr (.inr (.inr (.inl rfl))))
  rw [if_neg c5]
  by_cases c6 : departmentPattern.test (jsToLower (jsTrim q)).data = true
  · rw [if_pos c6]; exact .inr (.inl rfl)
  rw [if_neg c6]
  by_cases c7 : highestGpaPattern.test (jsToLower (jsTrim q)).data = true
  · rw [if_pos c7]; exact .inr (.inr (.inr (.inr (.inr (.inl rfl)))))
  rw [if_neg c7]
  by_cases c8 : attendancePattern.test (jsToLower (jsTrim q)).data = true
  · rw [if_pos c8]; exact .inl rfl
  rw [if_neg c8]
  by_cases c9 : (summaryPattern.test (jsToLower (jsTrim q)).data &&
      !(jsToLower (jsTrim q)).startsWith "/") = true
  · rw [if_pos c9]; exact .inr (.inr (.inr (.inl rfl)))
  rw [if_neg c9]
  by_cases c10 : placementPattern.test (jsToLower (jsTrim q)).data = true
  · rw [if_pos c10]
    exact .inr (.inr (.inr (.inr (.inr (.inr (.inl rfl))))))
  rw [if_neg c10]
  by_cases c11 : trendPattern.test (jsToLower (jsTrim q)).data = true
  · rw [if_pos c11]; exact .inr (.inr (.inl rfl))
  rw [if_neg c11]
  by_cases c12 : deptComparisonPattern.test (jsToLower (jsTrim q)).data = true
  · rw [if_pos c12]
    exact .inr (.inr (.inr (.inr (.inr (.inr (.inr (.inl rfl)))))))
  rw [if_neg c12]
  by_cases c13 : alertsPattern.test (jsToLower (jsTrim q)).data = true
  · rw [if_pos c13]
    exact .inr (.inr (.inr (.inr (.inr (.inr (.inr (.inr (.inl rfl))))))))
  rw [if_neg c13]
  exact .inr (.inr (.inr (.inr (.inr (.inr (.inr (.inr (.inr rfl))))))))

/-- C8: `interpret("attendance below 65%")` yields `low_attendance` with
threshold 65; whenever `interpret` produces a `low_attendance` intent,
its threshold is the first digit run of the lowercased trimmed text,
defaulting to 70 when the text has no digits (e.g. "low attendance"). -/
theorem lowAttendance_threshold_spec :
    interpretQuery "attendance below 65%" =
      ⟨.low_attendance 65, "attendance below 65%"⟩ ∧
    interpretQuery "low attendance" = ⟨.low_attendance 70, "low attendance"⟩ ∧
    (∀ (q : String) (t : Nat), (interpretQuery q).intent = .low_attendance t →
      t = (firstDigitRun (jsToLower (jsTrim q)).data).getD 70) := by
  refine ⟨by decide, by decide, ?_⟩
  intro q t h
  rcases interpretQuery_intent_cases q with hc | hc | hc | hc | hc | hc | hc | hc | hc | hc
  all_goals rw [h] at hc
  all_goals try exact Intent.noConfusion hc
  all_goals injection hc

/-- Witness for `lowAttendance_threshold_spec` at a concrete input. -/
theorem lowAttendance_threshold_spec_witness :
    (interpretQuery "attendance below 65%").intent = .low_attendance 65 ∧
    65 = (firstDigitRun (jsToLower (jsTrim "attendance below 65%")).data).getD 70 := by
  have h : (interpretQuery "attendance below 65%").intent = .low_attendance 65 := by decide
  exact ⟨h, lowAttendance_threshold_spec.2.2 "attendance below 65%" 65 h⟩

/-- C9: `interpret("Show Engineering students")` yields the `department`
intent with department `"Engineering"`; whenever `interpret` produces a
`department` intent, the department is the canonicalization of the
lowercased trimmed text by the fixed keyword table, where the first
table keyword occurring anywhere in the text wins and the default is
`"Engineering"` when no keyword occurs. -/
theorem department_intent_spec :
    interpretQuery "Show Engineering students" =
      ⟨.department "Engineering", "Show Engineering students"⟩ ∧
    (∀ (q d : String), (interpretQuery q).intent = .department d →
      d = extractDepartment (jsToLower (jsTrim q))) ∧
    (∀ l : String, (∀ kv ∈ departmentMap, ¬ strIncludes l kv.1 = true) →
      extractDepartment l = "Engineering") ∧
    (∀ l : String, strIncludes l "engineering" = true →
      extractDepartment l = "Engineering") ∧
    extractDepartment "show computer science students" = "Computer Science" ∧
    extractDepartment "show cs students" = "Computer Science" ∧
    extractDepartment "show business students" = "Business" ∧
    extractDepartment "arts students" = "Arts" ∧
    extractDepartment "science students" = "Science" := by
  refine ⟨by decide, ?_, ?_, ?_, by decide, by decide, by decide, by decide, by decide⟩
  · intro q d h
    rcases interpretQuery_intent_cases q with hc | hc | hc | hc | hc | hc | hc | hc | hc | hc
    all_goals rw [h] at hc
    all_goals try exact Intent.noConfusion hc
    all_goals injection hc
  · intro l hall
    unfold extractDepartment
    rw [List.find?_eq_none.mpr hall]
  · intro l h
    unfold extractDepartment departmentMap
    simp [List.find?, h]

/-- Witness for `department_intent_spec` at concrete inputs. -/
theorem department_intent_spec_witness :
    (interpretQuery "Show Engineering students").intent = .department "Engineering" ∧
    "Engineering" = extractDepartment (jsToLower (jsTrim "Show Engineering students")) ∧
    (∀ kv ∈ departmentMap, ¬ strIncludes "show xyz students" kv.1 = true) ∧
    extractDepartment "show xyz students" = "Engineering" := by
  have h : (interpretQuery "Show Engineering students").intent =
      .department "Engineering" := by decide
  have hall : ∀ kv ∈ departmentMap, ¬ strIncludes "show xyz students" kv.1 = true := by
    decide
  exact ⟨h, department_intent_spec.2.1 "Show Engineering students" "Engineering" h,
    hall, department_intent_spec.2.2.1 "show xyz students" hall⟩

/-- C10: interpreting any input and generating its response leaves every
record in the store unchanged — all assistant reads go through the
cloning accessors, and no branch of `getResponse` returns a modified
store. -/
theorem assistant_preserves_store :
    ∀ (m : List Student) (q : String), (getResponse m (interpretQuery q)).2 = m := by
  intro m q
  suffices h : ∀ itp : Interpreted, (getResponse m itp).2 = m from h _
  intro itp
  obtain ⟨intent, raw⟩ := itp
  cases intent
  all_goals simp only [getResponse, getOverallPerformanceSummaryS,
    getAtRiskStudentsS, getStudentsS, getStatsS, getStudentsByDepartmentS,
    getHighestGPAStudentsS, getLowAttendanceStudentsS,
    getPlacementReadyStudentsS, findStudentByNameS, getDepartmentComparisonS,
    getAutoAlertSuggestionS]
  all_goals repeat' split
  all_goals rfl
